import Mathlib

/-!
ConsoleLib ("src/app.py") — record-store verification.

Shallow embedding of the Book / Library classes of app.py. The in-memory
collection Library.books is modelled as a List Book; methods that mutate
self.books become functions from the old list to the new list, paired with
the Python return value or the raised error. String case-folding covers the
ASCII and Cyrillic alphabets; str.isdigit and int() distinguish decimal
digits from the other digit-type characters, over the character repertoire
the model covers. Definitions come first, then the theorems about them.
-/

/-- Class `Book` from `app.py`: id (assigned by the library or restored verbatim
from storage), title, author, publication year, and status string
("в наличии" = available, "выдана" = loaned). -/
structure Book where
  id : Int
  title : String
  author : String
  year : Int
  status : String
deriving DecidableEq, Repr

/-- The two Python `ValueError`s the library raises, tagged by condition:
`notFound` for a missing id, `invalidStatus` for a status string outside
{"в наличии", "выдана"} (the source distinguishes them only by message). -/
inductive LibError where
  | notFound
  | invalidStatus
deriving DecidableEq, Repr

/-- Python `max(iterable, default=0)`: the default is used only when the
iterable is empty; otherwise the maximum of the elements. -/
def pyMaxDefault0 : List Int → Int
  | [] => 0
  | x :: xs => xs.foldl max x

/-- Method `Library.generate_id`: `max((book.id for book in self.books), default=0) + 1`. -/
def generate_id (books : List Book) : Int :=
  pyMaxDefault0 (books.map (·.id)) + 1

/-- Method `Library.add_book`: builds `Book(title, author, year)` (status defaults to
"в наличии"), assigns `book.id = self.generate_id()`, appends it to
`self.books`. The second component is the Python return value of the method:
`add_book` has no `return` statement, so it returns `None`. -/
def add_book (books : List Book) (title author : String) (year : Int) :
    List Book × Option Book :=
  let book : Book :=
    { id := generate_id books, title := title, author := author,
      year := year, status := "в наличии" }
  (books ++ [book], none)

/-- Method `Library.find_book_by_id`: linear scan, first book whose `id` matches,
else `None`. -/
def find_book_by_id (books : List Book) (bookId : Int) : Option Book :=
  match books with
  | [] => none
  | b :: rest => if b.id = bookId then some b else find_book_by_id rest bookId

/-- Python `list.remove(book)`: removes the first element of the list equal to
`book`. (In the source the argument is the very object returned by
`find_book_by_id`, so equality-of-values and object identity single out the
same position: every book before it has a different id.) -/
def removeFirst (books : List Book) (b : Book) : List Book :=
  match books with
  | [] => []
  | x :: xs => if x = b then xs else x :: removeFirst xs b

/-- Method `Library.delete_book`: finds the book by id; if found, removes it from
`self.books` (then persists); otherwise raises `ValueError` ("not found").
First component: resulting `self.books`; second: the raised error, if any. -/
def delete_book (books : List Book) (bookId : Int) : List Book × Option LibError :=
  match find_book_by_id books bookId with
  | some book => (removeFirst books book, none)
  | none => (books, some LibError.notFound)

/-- One store mutation reachable from the menu: Create (add_book) or
Delete (delete_book). -/
inductive Op where
  | create (title author : String) (year : Int)
  | delete (bookId : Int)

/-- Apply one operation to the in-memory collection, keeping the resulting
`self.books` (return values and raised errors do not change the state). -/
def applyOp (books : List Book) : Op → List Book
  | .create t a y => (add_book books t a y).1
  | .delete i => (delete_book books i).1

/-- Apply a sequence of operations in order. -/
def applyOps (books : List Book) (ops : List Op) : List Book :=
  ops.foldl applyOp books

/-- In-place mutation `book.status = new_status` on the object returned by
`find_book_by_id`, i.e. on the first record in the list whose id matches. -/
def setStatusFirst (books : List Book) (bookId : Int) (newStatus : String) :
    List Book :=
  match books with
  | [] => []
  | b :: rest =>
    if b.id = bookId then { b with status := newStatus } :: rest
    else b :: setStatusFirst rest bookId newStatus

/-- Method `Library.change_book_status`: raises `ValueError` ("invalid status") when
`new_status` is outside {"в наличии", "выдана"}, before touching the list;
then finds the book by id, mutating its status on success, or raises
`ValueError` ("not found"). First component: resulting `self.books`; second:
the raised error, if any (the method itself returns `None` on success). -/
def change_book_status (books : List Book) (bookId : Int) (newStatus : String) :
    List Book × Option LibError :=
  if ¬(newStatus = "в наличии" ∨ newStatus = "выдана") then
    (books, some LibError.invalidStatus)
  else
    match find_book_by_id books bookId with
    | some _ => (setStatusFirst books bookId newStatus, none)
    | none => (books, some LibError.notFound)

/-- The three search fields the menu passes to `search_books`. -/
inductive SearchField where
  | title
  | author
  | year
deriving DecidableEq

/-- Evaluation of `str(getattr(book, field))` for the three permitted fields: the text
fields verbatim, the year in decimal. -/
def fieldStr (book : Book) : SearchField → String
  | .title => book.title
  | .author => book.author
  | .year => toString book.year

/-- Python `str.lower` on one character (simple case mapping), covering the
alphabets this repository's data uses: ASCII `A`-`Z` (code + 32), Cyrillic
`А`-`Я` U+0410-U+042F (code + 32) and `Ё` U+0401 → `ё` U+0451. Characters
outside these uppercase ranges are left unchanged. -/
def pyCharLower (c : Char) : Char :=
  if 65 ≤ c.toNat && c.toNat ≤ 90 then Char.ofNat (c.toNat + 32)
  else if 0x410 ≤ c.toNat && c.toNat ≤ 0x42F then Char.ofNat (c.toNat + 32)
  else if c.toNat == 0x401 then Char.ofNat 0x451
  else c

/-- Python `str.lower`: lower-cases each character of the string. -/
def pyLower (s : String) : String := ⟨s.data.map pyCharLower⟩

/-- Python substring containment `needle in hay`, on character lists:
`needle` occurs at the current position or further right. -/
def infixCheck (needle : List Char) : List Char → Bool
  | [] => needle.isEmpty
  | c :: rest => needle.isPrefixOf (c :: rest) || infixCheck needle rest

/-- Method `Library.search_books`: the list comprehension keeping, in collection
order, every book with `query.lower() in str(getattr(book, field)).lower()`. -/
def search_books (books : List Book) (query : String) (field : SearchField) :
    List Book :=
  books.filter fun book =>
    infixCheck (pyLower query).data (pyLower (fieldStr book field)).data

/-- One object of the persisted JSON array, as `json.load` hands it to
`load_books`: each of the five expected keys may be present or absent
(absence makes the `book_data[...]` lookup raise `KeyError`). -/
structure RawEntry where
  id : Option Int
  title : Option String
  author : Option String
  year : Option Int
  status : Option String
deriving DecidableEq, Repr

/-- Method `Book.to_dict`: the serialized object carries exactly the five fields. -/
def to_dict (b : Book) : RawEntry :=
  { id := some b.id, title := some b.title, author := some b.author,
    year := some b.year, status := some b.status }

/-- What `open` + `json.load` can yield inside `load_books`: a missing file
(`FileNotFoundError`), malformed content (`json.JSONDecodeError`), or a
well-formed array of objects. -/
inductive FileContent where
  | missing
  | invalidJson
  | entries (es : List RawEntry)

/-- Outcome of `load_books`: the resulting `self.books`, the messages written
to the error log (Fault Sink), and — when a lookup `book_data[key]` failed —
the key of the uncaught `KeyError`, which propagates out of the method. -/
structure LoadOutcome where
  books : List Book
  faults : List String
  raised : Option String
deriving DecidableEq, Repr

/-- The loop body of `load_books` on one entry:
`Book(book_data["title"], book_data["author"], book_data["year"])` followed by
`book.id = book_data["id"]` and `book.status = book_data["status"]`; the first
missing key (in that access order) raises `KeyError`. -/
def loadEntry (e : RawEntry) : Except String Book :=
  match e.title with
  | none => Except.error "title"
  | some t =>
    match e.author with
    | none => Except.error "author"
    | some a =>
      match e.year with
      | none => Except.error "year"
      | some y =>
        match e.id with
        | none => Except.error "id"
        | some i =>
          match e.status with
          | none => Except.error "status"
          | some st => Except.ok { id := i, title := t, author := a,
                                   year := y, status := st }

/-- The `for book_data in data` loop: appends reconstructed books to
`self.books` until done or until a `KeyError` escapes. -/
def loadEntries (acc : List Book) : List RawEntry → List Book × Option String
  | [] => (acc, none)
  | e :: rest =>
    match loadEntry e with
    | Except.ok b => loadEntries (acc ++ [b]) rest
    | Except.error k => (acc, some k)

/-- Method `Library.load_books` (called with `self.books = []`): a missing file
yields an empty collection silently; malformed JSON logs one fault and yields
an empty collection; well-formed entries are reconstructed verbatim, except
that a missing key raises an uncaught `KeyError`. -/
def load_books : FileContent → LoadOutcome
  | FileContent.missing => { books := [], faults := [], raised := none }
  | FileContent.invalidJson =>
      { books := [], faults := ["Ошибка загрузки JSON"], raised := none }
  | FileContent.entries es =>
      let r := loadEntries [] es
      { books := r.1, faults := [], raised := r.2 }

/-- Method `Library.save_books`: writes the JSON array `[book.to_dict() for book in
self.books]` (non-ASCII kept literal by `ensure_ascii=False`). -/
def save_books (books : List Book) : FileContent :=
  FileContent.entries (books.map to_dict)

/-- Unicode decimal-digit characters (category Nd, the ones `int()` accepts),
in the repertoire this model covers: the ASCII digits `0`-`9` and the
Arabic-Indic digits U+0660-U+0669. -/
def isDecimalDigitChar (c : Char) : Bool :=
  (48 ≤ c.toNat && c.toNat ≤ 57) || (0x660 ≤ c.toNat && c.toNat ≤ 0x669)

/-- Digit-type characters that Python `str.isdigit` accepts although `int()`
rejects them (Numeric_Type=Digit but not decimal), in the repertoire this
model covers: the superscript digits U+00B2 `²`, U+00B3 `³`, U+00B9 `¹`,
U+2070 `⁰` and U+2074-U+2079 `⁴`-`⁹`. -/
def isSuperscriptDigitChar (c : Char) : Bool :=
  c.toNat == 0xB2 || c.toNat == 0xB3 || c.toNat == 0xB9 ||
    c.toNat == 0x2070 || (0x2074 ≤ c.toNat && c.toNat ≤ 0x2079)

/-- Numeric value of a decimal-digit character: its offset inside its digit
block (ASCII from 48, Arabic-Indic from 0x660). -/
def decimalDigitVal (c : Char) : Nat :=
  if 48 ≤ c.toNat && c.toNat ≤ 57 then c.toNat - 48 else c.toNat - 0x660

/-- Python `str.isdigit`: true iff the string is non-empty and every
character has Numeric_Type Digit — a decimal digit or a superscript
digit. -/
def pyIsDigit (s : String) : Bool :=
  !s.data.isEmpty &&
    s.data.all (fun c => isDecimalDigitChar c || isSuperscriptDigitChar c)

/-- Python `int()` on the digit-type strings that reach it inside
`validate_year` (the `isdigit()` gate has already passed): the base-10 value
when every character is a decimal digit; otherwise — e.g. on a superscript
digit such as `²` — it raises `ValueError`. -/
def pyInt (s : String) : Except String Nat :=
  if s.data.all isDecimalDigitChar then
    Except.ok (s.data.foldl (fun acc c => 10 * acc + decimalDigitVal c) 0)
  else Except.error "ValueError"

/-- Method `Book.validate_year`: `if not year.isdigit(): return False` then
`year_int = int(year)` — whose `ValueError` is not caught and propagates —
then `1000 <= year_int <= datetime.now().year`. The current year of the
clock is a parameter of the model; the result is the returned Bool or the
raised error. -/
def validate_year (currentYear : Nat) (year : String) : Except String Bool :=
  if !pyIsDigit year then Except.ok false
  else
    match pyInt year with
    | Except.error e => Except.error e
    | Except.ok n => Except.ok (decide (1000 ≤ n) && decide (n ≤ currentYear))

theorem le_foldl_max (l : List Int) (x y : Int) (h : x ≤ y) :
    x ≤ l.foldl max y := by
  induction l generalizing y with
  | nil => exact h
  | cons a as ih => exact ih (max y a) (h.trans (le_max_left y a))

theorem mem_le_foldl_max (l : List Int) (y a : Int) (h : a ∈ l) :
    a ≤ l.foldl max y := by
  induction l generalizing y with
  | nil => simp at h
  | cons b bs ih =>
    rcases List.mem_cons.mp h with rfl | hmem
    · exact le_foldl_max bs a (max y a) (le_max_right y a)
    · exact ih (max y b) hmem

theorem mem_le_pyMaxDefault0 {xs : List Int} {a : Int} (h : a ∈ xs) :
    a ≤ pyMaxDefault0 xs := by
  match xs with
  | [] => simp at h
  | x :: rest =>
    rcases List.mem_cons.mp h with rfl | hmem
    · exact le_foldl_max rest a a le_rfl
    · exact mem_le_foldl_max rest x a hmem

theorem id_lt_generate_id {books : List Book} {b : Book} (h : b ∈ books) :
    b.id < generate_id books :=
  Int.lt_add_one_iff.mpr (mem_le_pyMaxDefault0 (List.mem_map_of_mem (·.id) h))

/-- C1: For every store state, `add_book` assigns the new record the id
`1 + max(existing ids, default 0)` (that is exactly `generate_id`), and this
id is strictly greater than every id currently present in the collection. -/
theorem C1_create_assigns_next_id (books : List Book) (title author : String)
    (year : Int) :
    (add_book books title author year).1 =
      books ++ [{ id := pyMaxDefault0 (books.map (·.id)) + 1, title := title,
                  author := author, year := year, status := "в наличии" }]
    ∧ ∀ b ∈ books, b.id < pyMaxDefault0 (books.map (·.id)) + 1 := by
  refine ⟨rfl, fun b hb => ?_⟩
  exact id_lt_generate_id hb

/-- C1 witness: the scenario from the spec — after records with ids 1, 2, 3 were
created and id 2 deleted, the next Create is assigned id 4, strictly above
both remaining ids. -/
theorem C1_create_assigns_next_id_witness :
    (add_book [⟨1, "A", "a", 1901, "в наличии"⟩, ⟨3, "C", "c", 1903, "в наличии"⟩]
        "D" "d" 1904).1 =
      [⟨1, "A", "a", 1901, "в наличии"⟩, ⟨3, "C", "c", 1903, "в наличии"⟩,
       ⟨4, "D", "d", 1904, "в наличии"⟩]
    ∧ (⟨3, "C", "c", 1903, "в наличии"⟩ : Book).id < 4 := by
  have h := C1_create_assigns_next_id
    [⟨1, "A", "a", 1901, "в наличии"⟩, ⟨3, "C", "c", 1903, "в наличии"⟩]
    "D" "d" 1904
  exact ⟨h.1, h.2 ⟨3, "C", "c", 1903, "в наличии"⟩ (by simp)⟩

theorem find_book_by_id_eq_none {books : List Book} {i : Int} :
    find_book_by_id books i = none ↔ ∀ b ∈ books, b.id ≠ i := by
  induction books with
  | nil => simp [find_book_by_id]
  | cons b rest ih =>
    by_cases h : b.id = i
    · simp [find_book_by_id, h]
    · simp [find_book_by_id, h, ih]

theorem find_book_by_id_eq_some {books : List Book} {i : Int} {b : Book}
    (h : find_book_by_id books i = some b) :
    b.id = i ∧ ∃ l₁ l₂, books = l₁ ++ b :: l₂ ∧ ∀ x ∈ l₁, x.id ≠ i := by
  induction books with
  | nil => simp [find_book_by_id] at h
  | cons a rest ih =>
    by_cases ha : a.id = i
    · rw [find_book_by_id, if_pos ha] at h
      cases h
      exact ⟨ha, [], rest, rfl, by simp⟩
    · rw [find_book_by_id, if_neg ha] at h
      obtain ⟨hb, l₁, l₂, rfl, hl₁⟩ := ih h
      exact ⟨hb, a :: l₁, l₂, rfl, by
        intro x hx
        rcases List.mem_cons.mp hx with rfl | hx'
        · exact ha
        · exact hl₁ x hx'⟩

theorem removeFirst_append_of_ne {l₁ l₂ : List Book} {b : Book}
    (h : ∀ x ∈ l₁, x ≠ b) :
    removeFirst (l₁ ++ b :: l₂) b = l₁ ++ l₂ := by
  induction l₁ with
  | nil => simp [removeFirst]
  | cons a as ih =>
    have ha : a ≠ b := h a (by simp)
    simp only [List.cons_append, removeFirst, if_neg ha, List.append_eq]
    rw [ih (fun x hx => h x (by simp [hx]))]

theorem removeFirst_sublist (books : List Book) (b : Book) :
    (removeFirst books b).Sublist books := by
  induction books with
  | nil => simp [removeFirst]
  | cons a as ih =>
    by_cases h : a = b
    · simp only [removeFirst, if_pos h]
      exact List.sublist_cons_self a as
    · simp only [removeFirst, if_neg h]
      exact ih.cons₂ a

/-- C10: When `delete_book` succeeds (the id is found), the collection loses
exactly one record — the first one in collection order whose id matches — and
the remaining records keep their relative order and all field values. -/
theorem C10_delete_removes_first_match (books : List Book) (bookId : Int)
    (b : Book) (h : find_book_by_id books bookId = some b) :
    ∃ l₁ l₂, books = l₁ ++ b :: l₂ ∧ b.id = bookId ∧
      (∀ x ∈ l₁, x.id ≠ bookId) ∧
      delete_book books bookId = (l₁ ++ l₂, none) := by
  obtain ⟨hid, l₁, l₂, rfl, hl₁⟩ := find_book_by_id_eq_some h
  refine ⟨l₁, l₂, rfl, hid, hl₁, ?_⟩
  have hne : ∀ x ∈ l₁, x ≠ b := by
    intro x hx hxb
    exact hl₁ x hx (hxb ▸ hid)
  simp [delete_book, h, removeFirst_append_of_ne hne]

/-- C10 witness: deleting id 2 from records with ids 1, 2, 3 removes exactly
the middle record and keeps the other two in order. -/
theorem C10_delete_removes_first_match_witness :
    ∃ l₁ l₂,
      ([⟨1, "A", "a", 1901, "в наличии"⟩, ⟨2, "B", "b", 1902, "выдана"⟩,
        ⟨3, "C", "c", 1903, "в наличии"⟩] : List Book) =
        l₁ ++ (⟨2, "B", "b", 1902, "выдана"⟩ : Book) :: l₂ ∧
      (⟨2, "B", "b", 1902, "выдана"⟩ : Book).id = 2 ∧
      (∀ x ∈ l₁, x.id ≠ 2) ∧
      delete_book [⟨1, "A", "a", 1901, "в наличии"⟩, ⟨2, "B", "b", 1902, "выдана"⟩,
        ⟨3, "C", "c", 1903, "в наличии"⟩] 2 = (l₁ ++ l₂, none) :=
  C10_delete_removes_first_match _ 2 _ (by decide)

/-- C8: `delete_book` on a collection containing no record with the given id
raises the "not found" `ValueError` and leaves the collection unchanged. -/
theorem C8_delete_missing_not_found (books : List Book) (bookId : Int)
    (h : ∀ b ∈ books, b.id ≠ bookId) :
    delete_book books bookId = (books, some LibError.notFound) := by
  simp [delete_book, find_book_by_id_eq_none.mpr h]

/-- C8 witness: `delete_book` with id 999 on a one-record collection fails
with NotFound and keeps the record. -/
theorem C8_delete_missing_not_found_witness :
    delete_book [⟨1, "A", "a", 1901, "в наличии"⟩] 999 =
      ([⟨1, "A", "a", 1901, "в наличии"⟩], some LibError.notFound) :=
  C8_delete_missing_not_found _ 999 (by decide)

theorem nodup_ids_add_book {books : List Book} (t a : String) (y : Int)
    (h : (books.map (·.id)).Nodup) :
    (((add_book books t a y).1).map (·.id)).Nodup := by
  have hmap : ((add_book books t a y).1).map (·.id) =
      books.map (·.id) ++ [generate_id books] := by
    simp [add_book]
  rw [hmap]
  refine List.Nodup.append h (List.nodup_singleton _) ?_
  intro x hx hx'
  obtain ⟨b, hb, rfl⟩ := List.mem_map.mp hx
  have hlt := id_lt_generate_id hb
  have : b.id = generate_id books := by simpa using hx'
  omega

theorem delete_book_sublist (books : List Book) (i : Int) :
    ((delete_book books i).1).Sublist books := by
  cases h : find_book_by_id books i with
  | none => simp [delete_book, h]
  | some b =>
    simp only [delete_book, h]
    exact removeFirst_sublist books b

/-- C2: starting from any collection whose ids are pairwise distinct (e.g.
the empty one), any sequence of Create/Delete operations leaves the ids
pairwise distinct. -/
theorem C2_ids_remain_distinct (books : List Book) (ops : List Op)
    (h : (books.map (·.id)).Nodup) :
    ((applyOps books ops).map (·.id)).Nodup := by
  induction ops generalizing books with
  | nil => exact h
  | cons op rest ih =>
    cases op with
    | create t a y => exact ih _ (nodup_ids_add_book t a y h)
    | delete i =>
      exact ih _ (((delete_book_sublist books i).map (·.id)).nodup h)

/-- C2 witness: from the empty store, three Creates followed by a Delete of
id 2 and another Create leave the ids pairwise distinct. -/
theorem C2_ids_remain_distinct_witness :
    (([] : List Book).map (·.id)).Nodup ∧
    ((applyOps [] [Op.create "A" "a" 1901, Op.create "B" "b" 1902,
        Op.create "C" "c" 1903, Op.delete 2,
        Op.create "D" "d" 1904]).map (·.id)).Nodup :=
  ⟨by simp, C2_ids_remain_distinct [] _ (by simp)⟩

/-- C3 counterexample: `add_book` appends the freshly built record (status
"в наличии"), but returns `None` to the caller — not the new record. The
claim that Create "returns that new Record" is false on the code. -/
theorem C3_create_return_counterexample :
    (add_book [] "Анна Каренина" "Толстой" 1877).2 = none ∧
    (add_book [] "Анна Каренина" "Толстой" 1877).1 =
      [⟨1, "Анна Каренина", "Толстой", 1877, "в наличии"⟩] :=
  ⟨rfl, rfl⟩

/-- C3 (amended): for every input, `add_book` constructs a new record with
status "в наличии" (AVAILABLE) and the generated id, appends it to the
collection — and returns no value (`None`), not the new record. -/
theorem C3_create_appends_available (books : List Book) (title author : String)
    (year : Int) :
    add_book books title author year =
      (books ++ [{ id := generate_id books, title := title, author := author,
                   year := year, status := "в наличии" }], none) := rfl

theorem setStatusFirst_append_of_ne {l₁ l₂ : List Book} {b : Book} {i : Int}
    (hl₁ : ∀ x ∈ l₁, x.id ≠ i) (hb : b.id = i) (st : String) :
    setStatusFirst (l₁ ++ b :: l₂) i st = l₁ ++ { b with status := st } :: l₂ := by
  induction l₁ with
  | nil => simp [setStatusFirst, hb]
  | cons a as ih =>
    have ha : a.id ≠ i := hl₁ a (by simp)
    simp only [List.cons_append, setStatusFirst, if_neg ha, List.append_eq]
    rw [ih (fun x hx => hl₁ x (by simp [hx]))]

/-- C4: `change_book_status` fails with InvalidStatus on any status outside
{"в наличии", "выдана"} with the collection (hence the status of every record)
unchanged; fails with NotFound when the status is valid but no record has the
id, again unchanged; and on success rewrites exactly the status of the first
record with that id, raising nothing. -/
theorem C4_change_status_cases (books : List Book) (bookId : Int)
    (newStatus : String) :
    (¬(newStatus = "в наличии" ∨ newStatus = "выдана") →
      change_book_status books bookId newStatus =
        (books, some LibError.invalidStatus))
    ∧ ((newStatus = "в наличии" ∨ newStatus = "выдана") →
      (∀ b ∈ books, b.id ≠ bookId) →
      change_book_status books bookId newStatus =
        (books, some LibError.notFound))
    ∧ (∀ b : Book, (newStatus = "в наличии" ∨ newStatus = "выдана") →
      find_book_by_id books bookId = some b →
      ∃ l₁ l₂, books = l₁ ++ b :: l₂ ∧ b.id = bookId ∧
        (∀ x ∈ l₁, x.id ≠ bookId) ∧
        change_book_status books bookId newStatus =
          (l₁ ++ { b with status := newStatus } :: l₂, none)) := by
  refine ⟨fun hbad => ?_, fun hok hnone => ?_, fun b hok hfind => ?_⟩
  · simp [change_book_status, hbad]
  · simp [change_book_status, hok, find_book_by_id_eq_none.mpr hnone]
  · obtain ⟨hid, l₁, l₂, rfl, hl₁⟩ := find_book_by_id_eq_some hfind
    refine ⟨l₁, l₂, rfl, hid, hl₁, ?_⟩
    simp [change_book_status, hok, hfind, setStatusFirst_append_of_ne hl₁ hid]

/-- C4 witness: on a one-record collection, status "unknown" fails with
InvalidStatus leaving the record as it was, and "выдана" on the present id
succeeds, rewriting the status of exactly that record. -/
theorem C4_change_status_cases_witness :
    change_book_status [⟨1, "A", "a", 1901, "в наличии"⟩] 1 "unknown" =
      ([⟨1, "A", "a", 1901, "в наличии"⟩], some LibError.invalidStatus)
    ∧ ∃ l₁ l₂,
        ([⟨1, "A", "a", 1901, "в наличии"⟩] : List Book) =
          l₁ ++ (⟨1, "A", "a", 1901, "в наличии"⟩ : Book) :: l₂ ∧
        (⟨1, "A", "a", 1901, "в наличии"⟩ : Book).id = 1 ∧
        (∀ x ∈ l₁, x.id ≠ 1) ∧
        change_book_status [⟨1, "A", "a", 1901, "в наличии"⟩] 1 "выдана" =
          (l₁ ++ (⟨1, "A", "a", 1901, "выдана"⟩ : Book) :: l₂, none) :=
  ⟨(C4_change_status_cases [⟨1, "A", "a", 1901, "в наличии"⟩] 1 "unknown").1
      (by decide),
   (C4_change_status_cases [⟨1, "A", "a", 1901, "в наличии"⟩] 1 "выдана").2.2
      ⟨1, "A", "a", 1901, "в наличии"⟩ (Or.inr rfl) (by decide)⟩

theorem infixCheck_iff (needle hay : List Char) :
    infixCheck needle hay = true ↔ needle <:+: hay := by
  induction hay with
  | nil =>
    simp only [infixCheck, List.isEmpty_iff, List.infix_nil]
  | cons c rest ih =>
    simp only [infixCheck, Bool.or_eq_true, List.isPrefixOf_iff_prefix, ih]
    exact (List.infix_cons_iff).symm

theorem infixCheck_nil_left (hay : List Char) : infixCheck [] hay = true := by
  cases hay <;> simp [infixCheck]

/-- C5: `search_books` returns exactly the books whose stringified field
contains the query as a case-insensitive substring; the result is a sublist
of the collection (collection order); and the empty query returns the whole
collection. -/
theorem C5_search_case_insensitive_substring (books : List Book)
    (query : String) (field : SearchField) :
    (search_books books query field).Sublist books
    ∧ (∀ b, b ∈ search_books books query field ↔
        b ∈ books ∧ (pyLower query).data <:+: (pyLower (fieldStr b field)).data)
    ∧ search_books books "" field = books := by
  refine ⟨List.filter_sublist _, fun b => ?_, ?_⟩
  · rw [search_books, List.mem_filter]
    exact and_congr_right fun _ => infixCheck_iff _ _
  · rw [search_books]
    refine List.filter_eq_self.mpr fun b _ => ?_
    have h0 : (pyLower "").data = [] := by decide
    rw [h0, infixCheck_nil_left]

/-- C5 witness: the fixture from the spec — case-insensitive query "LV" over authors
"Silva" and "Oliveira" matches both (shown for the first), the empty
query returns the whole collection in order, and the Cyrillic query
"ВОЙНА" matches the title "Война и мир" (case folded on both sides). -/
theorem C5_search_case_insensitive_substring_witness :
    search_books [⟨1, "X", "Silva", 1901, "в наличии"⟩,
        ⟨2, "Y", "Oliveira", 1902, "в наличии"⟩] "" SearchField.author =
      [⟨1, "X", "Silva", 1901, "в наличии"⟩,
       ⟨2, "Y", "Oliveira", 1902, "в наличии"⟩]
    ∧ (⟨1, "X", "Silva", 1901, "в наличии"⟩ : Book) ∈
        search_books [⟨1, "X", "Silva", 1901, "в наличии"⟩,
          ⟨2, "Y", "Oliveira", 1902, "в наличии"⟩] "LV" SearchField.author
    ∧ (⟨3, "Война и мир", "Толстой", 1869, "в наличии"⟩ : Book) ∈
        search_books [⟨3, "Война и мир", "Толстой", 1869, "в наличии"⟩]
          "ВОЙНА" SearchField.title :=
  ⟨(C5_search_case_insensitive_substring [⟨1, "X", "Silva", 1901, "в наличии"⟩,
      ⟨2, "Y", "Oliveira", 1902, "в наличии"⟩] "" SearchField.author).2.2,
   ((C5_search_case_insensitive_substring [⟨1, "X", "Silva", 1901, "в наличии"⟩,
      ⟨2, "Y", "Oliveira", 1902, "в наличии"⟩] "LV" SearchField.author).2.1 _).mpr
    ⟨by simp, by decide⟩,
   ((C5_search_case_insensitive_substring
      [⟨3, "Война и мир", "Толстой", 1869, "в наличии"⟩]
      "ВОЙНА" SearchField.title).2.1 _).mpr ⟨by simp, by decide⟩⟩

theorem loadEntry_to_dict (b : Book) : loadEntry (to_dict b) = Except.ok b :=
  rfl

theorem loadEntries_map_to_dict (books : List Book) (acc : List Book) :
    loadEntries acc (books.map to_dict) = (acc ++ books, none) := by
  induction books generalizing acc with
  | nil => simp [loadEntries]
  | cons b rest ih =>
    simp only [List.map_cons, loadEntries, loadEntry_to_dict]
    rw [ih]
    simp

/-- C6: persisting any collection (the claim asks for non-empty ones,
multi-byte text included) and loading from the same file restores the
collection exactly: all fields, order, and count, with nothing logged and
nothing raised. -/
theorem C6_save_load_round_trip (books : List Book) (_h : books ≠ []) :
    load_books (save_books books) =
      { books := books, faults := [], raised := none } := by
  simp [load_books, save_books, loadEntries_map_to_dict]

/-- C6 witness: a collection with multi-byte (Cyrillic) title and author
survives the round-trip unchanged. -/
theorem C6_save_load_round_trip_witness :
    ([⟨1, "Война и мир", "Толстой", 1869, "в наличии"⟩,
      ⟨2, "Евгений Онегин", "Пушкин", 1833, "выдана"⟩] : List Book) ≠ []
    ∧ load_books (save_books
        [⟨1, "Война и мир", "Толстой", 1869, "в наличии"⟩,
         ⟨2, "Евгений Онегин", "Пушкин", 1833, "выдана"⟩]) =
      { books := [⟨1, "Война и мир", "Толстой", 1869, "в наличии"⟩,
                  ⟨2, "Евгений Онегин", "Пушкин", 1833, "выдана"⟩],
        faults := [], raised := none } :=
  ⟨by decide,
   C6_save_load_round_trip
     [⟨1, "Война и мир", "Толстой", 1869, "в наличии"⟩,
      ⟨2, "Евгений Онегин", "Пушкин", 1833, "выдана"⟩] (by decide)⟩

/-- C7 counterexample: a well-formed JSON array whose single entry lacks the
"title" key. The claim says the load is handled like malformed content
(fault reported, collection empty, nothing propagates); the code instead
raises an uncaught `KeyError` and reports nothing to the Fault Sink. -/
theorem C7_missing_field_counterexample :
    load_books (FileContent.entries
        [{ id := some 1, title := none, author := some "Пушкин",
           year := some 1833, status := some "в наличии" }]) =
      { books := [], faults := [], raised := some "title" }
    ∧ { books := [], faults := [], raised := some "title" } ≠
      ({ books := [], faults := ["Ошибка загрузки JSON"], raised := none } :
        LoadOutcome) := by
  constructor
  · rfl
  · decide

/-- C7 (amended): only a missing file and malformed JSON are handled
gracefully; in a well-formed array, an entry missing any expected key
(title, author, year, id or status) makes the lookup error (`KeyError`, on
the first missing key in the access order of the source) propagate to the
caller — no fault is reported to the Fault Sink, and the collection keeps
the entries loaded so far instead of being re-initialized empty. -/
theorem C7_missing_field_raises (good : List RawEntry) (bad : RawEntry)
    (rest : List RawEntry) (loaded : List Book)
    (hgood : loadEntries [] good = (loaded, none))
    (hbad : bad.title = none ∨ bad.author = none ∨ bad.year = none ∨
      bad.id = none ∨ bad.status = none) :
    ∃ k, loadEntry bad = Except.error k ∧
      load_books (FileContent.entries (good ++ bad :: rest)) =
        { books := loaded, faults := [], raised := some k } := by
  have hke : ∃ k, loadEntry bad = Except.error k := by
    obtain ⟨i, t, a, y, st⟩ := bad
    cases t with
    | none => exact ⟨"title", rfl⟩
    | some tv =>
      cases a with
      | none => exact ⟨"author", rfl⟩
      | some av =>
        cases y with
        | none => exact ⟨"year", rfl⟩
        | some yv =>
          cases i with
          | none => exact ⟨"id", rfl⟩
          | some iv =>
            cases st with
            | none => exact ⟨"status", rfl⟩
            | some stv => simp at hbad
  obtain ⟨k, hk⟩ := hke
  refine ⟨k, hk, ?_⟩
  have happ : ∀ (acc : List Book) (es₁ : List RawEntry) (bs : List Book)
      (es₂ : List RawEntry), loadEntries acc es₁ = (bs, none) →
      loadEntries acc (es₁ ++ es₂) = loadEntries bs es₂ := by
    intro acc es₁
    induction es₁ generalizing acc with
    | nil => intro bs es₂ h; simp only [loadEntries] at h
             cases h; simp [loadEntries]
    | cons e es ih =>
      intro bs es₂ h
      simp only [loadEntries] at h ⊢
      cases he : loadEntry e with
      | ok b =>
        rw [he] at h
        exact ih (acc ++ [b]) bs es₂ h
      | error k => rw [he] at h; cases h
  have hstep : loadEntries loaded (bad :: rest) = (loaded, some k) := by
    simp only [loadEntries, hk]
  simp only [load_books, happ [] good loaded (bad :: rest) hgood, hstep]

/-- C7 witness for the amended claim: one well-formed entry followed by one
entry missing its title — the first book is loaded, then the `KeyError`
escapes with no fault logged. -/
theorem C7_missing_field_raises_witness :
    ∃ k, loadEntry ({ id := some 2, title := none, author := some "b",
                      year := some 1902, status := some "выдана" } : RawEntry) =
        Except.error k ∧
      load_books (FileContent.entries
          [to_dict ⟨1, "A", "a", 1901, "в наличии"⟩,
           { id := some 2, title := none, author := some "b",
             year := some 1902, status := some "выдана" }]) =
        { books := [⟨1, "A", "a", 1901, "в наличии"⟩], faults := [],
          raised := some k } :=
  C7_missing_field_raises [to_dict ⟨1, "A", "a", 1901, "в наличии"⟩]
    { id := some 2, title := none, author := some "b",
      year := some 1902, status := some "выдана" }
    [] [⟨1, "A", "a", 1901, "в наличии"⟩] (by decide) (Or.inl rfl)

theorem foldl_digits_eq_ofDigits (l : List Char) (acc : Nat) :
    l.foldl (fun a c => 10 * a + decimalDigitVal c) acc =
      Nat.ofDigits 10 (l.reverse.map decimalDigitVal) + acc * 10 ^ l.length := by
  induction l generalizing acc with
  | nil => simp
  | cons c cs ih =>
    simp only [List.foldl_cons, List.reverse_cons, List.map_append,
      List.map_cons, List.map_nil, List.length_cons]
    rw [ih, Nat.ofDigits_append]
    simp only [List.length_map, List.length_reverse, Nat.ofDigits_singleton]
    ring

theorem pyInt_ok_of_decimal {s : String}
    (h : s.data.all isDecimalDigitChar = true) :
    pyInt s = Except.ok (Nat.ofDigits 10 (s.data.reverse.map decimalDigitVal)) := by
  rw [pyInt, if_pos h, foldl_digits_eq_ofDigits]
  simp

/-- C9 counterexample: "²" is not composed only of decimal digits, so the
claim says `validate_year` returns false on it; in the code, `isdigit()`
passes (superscript two is a digit-type character) and `int("²")` raises
`ValueError`, which propagates: the function fails instead of returning
false. -/
theorem C9_validate_year_counterexample :
    validate_year 2026 "²" = Except.error "ValueError" ∧
    validate_year 2026 "²" ≠ Except.ok false :=
  ⟨rfl, fun h => Except.noConfusion h⟩

/-- C9 (amended): `validate_year` returns true exactly when the text is
non-empty, composed only of decimal digits, and its value lies in
[1000, currentYear]; it returns false on any string rejected by
`isdigit()` (e.g. one with a non-digit character); but on a digit-type
string containing a non-decimal digit, `int()` raises `ValueError`, which
propagates to the caller — the function is not total. -/
theorem C9_validate_year_cases (currentYear : Nat) (year : String) :
    (validate_year currentYear year = Except.ok true ↔
      year.data ≠ [] ∧ (∀ c ∈ year.data, isDecimalDigitChar c) ∧
        1000 ≤ Nat.ofDigits 10 (year.data.reverse.map decimalDigitVal) ∧
        Nat.ofDigits 10 (year.data.reverse.map decimalDigitVal) ≤ currentYear)
    ∧ (¬ pyIsDigit year = true →
        validate_year currentYear year = Except.ok false)
    ∧ (pyIsDigit year = true → ¬ (∀ c ∈ year.data, isDecimalDigitChar c) →
        validate_year currentYear year = Except.error "ValueError") := by
  have hb2 : ¬ pyIsDigit year = true →
      validate_year currentYear year = Except.ok false := by
    intro h
    have hf : pyIsDigit year = false := by
      cases hc : pyIsDigit year
      · rfl
      · exact absurd hc h
    simp [validate_year, hf]
  have hb3 : pyIsDigit year = true →
      ¬ (∀ c ∈ year.data, isDecimalDigitChar c) →
      validate_year currentYear year = Except.error "ValueError" := by
    intro hd hnotall
    have hall : year.data.all isDecimalDigitChar = false := by
      cases hc : year.data.all isDecimalDigitChar
      · rfl
      · exact absurd (by simpa [List.all_eq_true] using hc) hnotall
    simp [validate_year, hd, pyInt, hall]
  refine ⟨⟨fun h => ?_, fun h => ?_⟩, hb2, hb3⟩
  · by_cases hd : pyIsDigit year = true
    · by_cases hall : ∀ c ∈ year.data, isDecimalDigitChar c
      · have hallb : year.data.all isDecimalDigitChar = true := by
          simpa [List.all_eq_true] using hall
        have hval : validate_year currentYear year = Except.ok
            (decide (1000 ≤ Nat.ofDigits 10
                (year.data.reverse.map decimalDigitVal)) &&
             decide (Nat.ofDigits 10
                (year.data.reverse.map decimalDigitVal) ≤ currentYear)) := by
          rw [validate_year, if_neg (by simp [hd]), pyInt_ok_of_decimal hallb]
        rw [hval] at h
        simp only [Except.ok.injEq, Bool.and_eq_true, decide_eq_true_eq] at h
        have hne : year.data ≠ [] := by
          intro h0
          rw [pyIsDigit, h0] at hd
          simp at hd
        exact ⟨hne, hall, h.1, h.2⟩
      · rw [hb3 hd hall] at h
        exact Except.noConfusion h
    · rw [hb2 hd] at h
      simp at h
  · obtain ⟨hne, hall, h1, h2⟩ := h
    have hallb : year.data.all isDecimalDigitChar = true := by
      simpa [List.all_eq_true] using hall
    have hd : pyIsDigit year = true := by
      rw [pyIsDigit]
      simp only [Bool.and_eq_true, Bool.not_eq_true', List.all_eq_true,
        Bool.or_eq_true]
      refine ⟨?_, fun c hc => Or.inl (hall c hc)⟩
      cases hcase : year.data with
      | nil => exact absurd hcase hne
      | cons a l => rfl
    rw [validate_year, if_neg (by simp [hd]), pyInt_ok_of_decimal hallb]
    simp only [Except.ok.injEq, Bool.and_eq_true, decide_eq_true_eq]
    exact ⟨h1, h2⟩

/-- C9 witness: "1984" is accepted for current year 2026; "19a4" (a
non-digit character) returns false; "٢٠٠٠" (Arabic-Indic decimal digits,
value 2000) is accepted; and "²" reaches the raising branch. -/
theorem C9_validate_year_cases_witness :
    validate_year 2026 "1984" = Except.ok true ∧
    validate_year 2026 "19a4" = Except.ok false ∧
    validate_year 2026 "٢٠٠٠" = Except.ok true ∧
    validate_year 2026 "²" = Except.error "ValueError" :=
  ⟨(C9_validate_year_cases 2026 "1984").1.mpr (by decide),
   (C9_validate_year_cases 2026 "19a4").2.1 (by decide),
   (C9_validate_year_cases 2026 "٢٠٠٠").1.mpr (by decide),
   (C9_validate_year_cases 2026 "²").2.2 (by decide) (by decide)⟩
